import Mathlib

/-!
# Verification of the Product catalog CRUD service

Shallow embedding of the Product entity model and the HTTP route handlers
(`service/routes.py`) of the product-catalog repository, with theorems about
the data-validation, query and route contracts.

The entity model (`service/models.py`: `Product`, `Category`, serialization,
persistence operations) is not present in the source tree — only its tests and
its callers are — so those definitions are modelled from the specification
(each such definition carries a `Modelled from the spec:` doc comment).
The route handlers are translated directly from `service/routes.py`.
-/

/-- Modelled from the spec: the `Category` enumeration — "enumerated value over
a fixed, closed set of category names (e.g., UNKNOWN, CLOTHS, FOOD, …)",
missing from src/ (`service/models.py`).  We fix the three members the spec and
the tests name.  Members carry integer values (used by the ordinal lookup in
`GET /products`). -/
inductive Category
  | UNKNOWN
  | CLOTHS
  | FOOD
deriving DecidableEq, Fintype

/-- Integer value of a `Category` member (Python `Category(<int>)` looks up by
this value). -/
def Category.value : Category → Nat
  | .UNKNOWN => 0
  | .CLOTHS => 1
  | .FOOD => 2

/-- Name of a `Category` member (Python `member.name`). -/
def Category.name : Category → String
  | .UNKNOWN => "UNKNOWN"
  | .CLOTHS => "CLOTHS"
  | .FOOD => "FOOD"

/-- Lookup of a `Category` member by integer value (Python `Category(n)`);
`none` models the `ValueError` Python raises when no member has that value. -/
def Category.fromValue (n : Nat) : Option Category :=
  if n = 0 then some .UNKNOWN
  else if n = 1 then some .CLOTHS
  else if n = 2 then some .FOOD
  else none

/-- Lookup of a `Category` member by exact, case-sensitive name (Python
`Category[s]`); `none` models the `KeyError` Python raises on no match. -/
def Category.fromName (s : String) : Option Category :=
  if s = "UNKNOWN" then some .UNKNOWN
  else if s = "CLOTHS" then some .CLOTHS
  else if s = "FOOD" then some .FOOD
  else none

/-- A JSON-ish transport value, as handled by `serialize`/`deserialize`.
`decStr q` stands for a string that is the exact decimal rendering of the
decimal number `q` (the spec renders `price` as a string "to avoid precision
loss across transport"); we carry the denoted number rather than the character
sequence, which keeps decimal equality exact as the spec demands. -/
inductive JVal
  | null
  | bool (b : Bool)
  | str (s : String)
  | num (q : Rat)
  | decStr (q : Rat)
deriving DecidableEq

/-- First-match association lookup in a mapping, modelling Python `data[key]` /
`key in data` on a dict. -/
def jlookup (m : List (String × JVal)) (k : String) : Option JVal :=
  match m with
  | [] => none
  | (k', v) :: rest => if k' = k then some v else jlookup rest k

/-- Data handed to `deserialize`: either an actual mapping, or some non-mapping
value such as a stringified mapping (the spec's "not a mapping type at all
(e.g., a serialized/string form)"). -/
inductive PyData
  | mapping (m : List (String × JVal))
  | text (s : String)
deriving DecidableEq

/-- Modelled from the spec: the single unified "invalid data" error kind
(`DataValidationError` in `service/models.py`, missing from src/).  The real
class is one exception type whose instances differ only in message text; the
constructors here distinguish those messages. -/
inductive DataValidationError
  | notAMapping
  | missingKey (k : String)
  | badType (field : String)
deriving DecidableEq

/-- Modelled from the spec: the `Product` entity — `id` integer, "absent
(null) until persisted"; `name` text; `description` text, optional; `price`
decimal (represented exactly, as `Rat`); `available` boolean; `category`
enumerated. -/
structure Product where
  id : Option Nat
  name : String
  description : Option String
  price : Rat
  available : Bool
  category : Category
deriving DecidableEq

/-- Modelled from the spec: a freshly constructed in-memory `Product()` —
"all fields optional at construction", in particular `id` unset.  The
non-`id` placeholder values are irrelevant: every theorem that uses `blank`
overwrites them through a successful `deserialize`. -/
def Product.blank : Product :=
  { id := none, name := "", description := none, price := 0,
    available := false, category := .UNKNOWN }

/-- Modelled from the spec: `serialize() -> mapping` — "Produces a mapping
with keys id, name, description, price, available, category. `price` is
rendered as a string … `category` is rendered as its enum member's name
(string). `id` is rendered as present-but-null if unset, otherwise as an
integer. No side effects." -/
def Product.serialize (p : Product) : List (String × JVal) :=
  [("id", match p.id with | none => JVal.null | some n => JVal.num (n : Rat)),
   ("name", JVal.str p.name),
   ("description",
     match p.description with | none => JVal.null | some d => JVal.str d),
   ("price", JVal.decStr p.price),
   ("available", JVal.bool p.available),
   ("category", JVal.str p.category.name)]

/-- Modelled from the spec: parsing a transport value as a decimal price —
"`price` (convertible to decimal)"; a decimal-string or a number converts,
anything else "cannot be parsed as a decimal number". -/
def parsePrice : JVal → Option Rat
  | .decStr q => some q
  | .num q => some q
  | _ => none

/-- Modelled from the spec: `deserialize(mapping) -> Self | fails`
(`service/models.py`, missing from src/).  Requires `name` (string),
`description` (string, optional — missing treated as absent/null), `price`
(convertible to decimal), `available` (an actual boolean, never coerced from a
string), `category` (string matching an enum member name, case-sensitively).
Fails with the unified `DataValidationError` when the input is not a mapping,
a required key is absent, `available` is present but not a boolean, `category`
matches no member, or `price` does not parse.  On success populates all fields
on the instance, leaving `id` untouched, and returns the instance. -/
def Product.deserialize (p : Product) (d : PyData) :
    Except DataValidationError Product :=
  match d with
  | .text _ => .error .notAMapping
  | .mapping m =>
    match jlookup m "name" with
    | none => .error (.missingKey "name")
    | some (.str nm) =>
      match jlookup m "price" with
      | none => .error (.missingKey "price")
      | some pv =>
        match parsePrice pv with
        | none => .error (.badType "price")
        | some pr =>
          match jlookup m "available" with
          | none => .error (.missingKey "available")
          | some (.bool b) =>
            match jlookup m "category" with
            | none => .error (.missingKey "category")
            | some (.str cs) =>
              match Category.fromName cs with
              | none => .error (.badType "category")
              | some c =>
                .ok { p with
                      name := nm,
                      description :=
                        (match jlookup m "description" with
                         | some (.str ds) => some ds
                         | _ => none),
                      price := pr, available := b, category := c }
            | some _ => .error (.badType "category")
          | some _ => .error (.badType "available")
    | some _ => .error (.badType "name")

/-- The persistence store: one table of Product rows plus the generator for
the next insert id.  Modelled from the spec: "one table/collection of Product
rows keyed by generated integer id". -/
structure DB where
  rows : List Product
  nextId : Nat
deriving DecidableEq

/-- Modelled from the spec: `create()` — on a Transient instance (id unset),
inserts a new row, and assigns the store-generated integer id back onto the
instance.  Returns the updated instance and store.  (Behavior on an already
persisted instance is not specified; every theorem assumes a Transient one.) -/
def Product.create (p : Product) (db : DB) : Product × DB :=
  let q := { p with id := some db.nextId }
  (q, { rows := db.rows ++ [q], nextId := db.nextId + 1 })

/-- Modelled from the spec: `find(id) -> Product | absent` — point lookup
returning a detached instance or an explicit absent marker. -/
def Product.find (db : DB) (i : Nat) : Option Product :=
  db.rows.find? (fun r => decide (r.id = some i))

/-- Modelled from the spec: `all() -> sequence of Product` — every row, in
insertion order. -/
def Product.all (db : DB) : List Product :=
  db.rows

/-- Modelled from the spec: `update()` — overwrites all mutable fields of the
row matching the instance's `id` with the instance's fields. -/
def Product.update (p : Product) (db : DB) : DB :=
  { rows := db.rows.map (fun r => if r.id = p.id then p else r),
    nextId := db.nextId }

/-- Modelled from the spec: `delete()` — removes the row matching the
instance's `id`; removing a non-existent id is a no-op at the store. -/
def Product.delete (p : Product) (db : DB) : DB :=
  { rows := db.rows.filter (fun r => decide (r.id ≠ p.id)),
    nextId := db.nextId }

/-- Modelled from the spec: `find_by_name(name)` — exact, case-sensitive
match on `name`. -/
def Product.find_by_name (db : DB) (n : String) : List Product :=
  db.rows.filter (fun r => decide (r.name = n))

/-- Modelled from the spec: `find_by_category(category_enum)` — exact match
on `category`. -/
def Product.find_by_category (db : DB) (c : Category) : List Product :=
  db.rows.filter (fun r => decide (r.category = c))

/-- Modelled from the spec: `find_by_availability(bool)` — exact match on
`available`. -/
def Product.find_by_availability (db : DB) (b : Bool) : List Product :=
  db.rows.filter (fun r => decide (r.available = b))

/-- Modelled from the spec: `find_by_price(decimal)` — exact match on `price`
(decimal equality, not float epsilon comparison). -/
def Product.find_by_price (db : DB) (q : Rat) : List Product :=
  db.rows.filter (fun r => decide (r.price = q))

/-- A Python exception escaping a route handler unhandled: the `ValueError`
from `Category(int)`, the `KeyError` from `Category[name]`, or a
`DataValidationError` raised by `deserialize` inside a handler that does not
catch it. -/
inductive PyError
  | valueError
  | keyError
  | dataValidation (e : DataValidationError)
deriving DecidableEq

/-- Body of an HTTP response produced by a handler. -/
inductive RespBody
  | text (s : String)
  | jsonObj (m : List (String × JVal))
  | jsonArr (l : List (List (String × JVal)))
deriving DecidableEq

/-- Outcome of running a route handler: either an HTTP response (status and
body; `abort(code, msg)` yields `response code (text msg)`), or an unhandled
Python exception propagating out of the handler. -/
inductive RouteOutcome
  | response (status : Nat) (body : RespBody)
  | error (e : PyError)
deriving DecidableEq

/-- Function `check_content_type` from `service/routes.py`: aborts with 415 when the
Content-Type header is missing or differs from the expected one; returns
nothing (no abort) when it matches.  `some r` is the abort response. -/
def check_content_type (hdr : Option String) (expected : String) :
    Option RouteOutcome :=
  match hdr with
  | none =>
    some (.response 415 (.text ("Content-Type must be " ++ expected)))
  | some h =>
    if h = expected then none
    else some (.response 415 (.text ("Content-Type must be " ++ expected)))

/-- Python `str.isdigit()`: nonempty and all characters digits (stated over
the character list so that concrete evaluation reduces). -/
def pyIsDigit (s : String) : Bool :=
  !s.data.isEmpty && s.data.all Char.isDigit

/-- Python `int(s)` on a digit string: base-10 value of the characters. -/
def pyInt (s : String) : Nat :=
  s.data.foldl (fun n c => n * 10 + (c.toNat - 48)) 0

/-- Python truthiness of the `available` query parameter in `get_products`
(`service/routes.py` lines 120-123): lower-cased value in
{"true", "yes", "1"}; anything else is false. -/
def parseAvailParam (a : String) : Bool :=
  ["true", "yes", "1"].contains a.toLower

/-- The category-parameter lookup of `get_products` (`service/routes.py`
lines 112-116): a digit string is converted with `int` and looked up by value
(`Category(n)`, `ValueError` on failure), any other string is looked up by
exact member name (`Category[s]`, `KeyError` on failure). -/
def parseCategoryParam (c : String) : Except PyError Category :=
  if pyIsDigit c then
    match Category.fromValue (pyInt c) with
    | some k => .ok k
    | none => .error .valueError
  else
    match Category.fromName c with
    | some k => .ok k
    | none => .error .keyError

/-- Handler `get_products` (`GET /products`) from `service/routes.py`: reads the
`available`, `name` and `category` query parameters (each absent or a
string); dispatches on `category` first, then `available`, then `name`, else
lists all; serializes the resulting products as a JSON array with status 200.
An enum-lookup failure on `category` propagates unhandled. -/
def get_products (db : DB) (avai nameq cate : Option String) : RouteOutcome :=
  match cate with
  | some c =>
    match parseCategoryParam c with
    | .error e => .error e
    | .ok k =>
      .response 200 (.jsonArr ((Product.find_by_category db k).map
        Product.serialize))
  | none =>
    match avai with
    | some a =>
      .response 200 (.jsonArr ((Product.find_by_availability db
        (parseAvailParam a)).map Product.serialize))
    | none =>
      match nameq with
      | some n =>
        .response 200 (.jsonArr ((Product.find_by_name db n).map
          Product.serialize))
      | none =>
        .response 200 (.jsonArr ((Product.all db).map Product.serialize))

/-- Handler `get_product` (GET on a single product id) from `service/routes.py`: find the
product; 404 abort when absent, otherwise 200 with the serialized product. -/
def get_product (db : DB) (pid : Nat) : RouteOutcome :=
  match Product.find db pid with
  | none => .response 404 (.text "No said product")
  | some p => .response 200 (.jsonObj p.serialize)

/-- Handler `create_products` (`POST /products`) from `service/routes.py`: content
type check (415 abort), then deserialize the body into a fresh `Product()` (a
`DataValidationError` propagates out of the handler, where the application's
error handler maps it to 400), then `create()` and answer 201 with the
serialized product.  Returns the outcome together with the resulting store. -/
def create_products (db : DB) (ct : Option String) (body : PyData) :
    RouteOutcome × DB :=
  match check_content_type ct "application/json" with
  | some r => (r, db)
  | none =>
    match Product.blank.deserialize body with
    | .error e => (.error (.dataValidation e), db)
    | .ok p =>
      (.response 201 (.jsonObj (p.create db).1.serialize), (p.create db).2)

/-- Handler `update_product` (PUT on a single product id) from `service/routes.py`: find
the product first (404 abort when absent, before any content-type or body
processing), then the content-type check (415 abort), then deserialize the
body into the found product (`product.deserialize(data)` — a
`DataValidationError` propagates unhandled, the handler has no error check),
then `product.id = product_id` and `update()`, answering 200 with the
serialized product. -/
def update_product (db : DB) (pid : Nat) (ct : Option String) (body : PyData) :
    RouteOutcome × DB :=
  match Product.find db pid with
  | none => (.response 404 (.text "No said product"), db)
  | some p =>
    match check_content_type ct "application/json" with
    | some r => (r, db)
    | none =>
      match p.deserialize body with
      | .error e => (.error (.dataValidation e), db)
      | .ok p' =>
        (.response 200 (.jsonObj (Product.serialize { p' with id := some pid })),
         Product.update { p' with id := some pid } db)

/-- Handler `delete_product` (DELETE on a single product id) from `service/routes.py`: find
the product; 404 abort when absent; otherwise `delete()` and return the body
`"OK"` with status 204. -/
def delete_product (db : DB) (pid : Nat) : RouteOutcome × DB :=
  match Product.find db pid with
  | none => (.response 404 (.text "No said product"), db)
  | some p => (.response 204 (.text "OK"), p.delete db)

/-- One HTTP request against the service, at the granularity the route
handlers see. -/
inductive Op
  | put (pid : Nat) (ct : Option String) (body : PyData)
  | del (pid : Nat)
  | post (ct : Option String) (body : PyData)
  | getList (avai nameq cate : Option String)
  | getOne (pid : Nat)
deriving DecidableEq

/-- The store after handling one request (GET requests never mutate it). -/
def applyOp (db : DB) : Op → DB
  | .put pid ct body => (update_product db pid ct body).2
  | .del pid => (delete_product db pid).2
  | .post ct body => (create_products db ct body).2
  | .getList _ _ _ => db
  | .getOne _ => db

/-- The store after handling a sequence of requests. -/
def applyOps (db : DB) (ops : List Op) : DB :=
  ops.foldl applyOp db

/-- A persisted sample product (the spec's Fedora example, with a
whole-number price so that concrete evaluation reduces). -/
def sampleProduct : Product :=
  { id := some 1, name := "Fedora", description := some "A red hat",
    price := 12, available := true, category := .CLOTHS }

/-- A sample store holding exactly `sampleProduct`. -/
def sampleDB : DB := { rows := [sampleProduct], nextId := 2 }

/-- C5: each of `find_by_name`, `find_by_category`, `find_by_availability`,
`find_by_price` returns exactly the persisted rows whose corresponding field
equals the query value (exact, case-sensitive for name; decimal equality for
price), and no other rows. -/
theorem find_by_filters_exact (db : DB) (n : String) (c : Category) (b : Bool)
    (q : Rat) (p : Product) :
    (p ∈ Product.find_by_name db n ↔ p ∈ db.rows ∧ p.name = n) ∧
    (p ∈ Product.find_by_category db c ↔ p ∈ db.rows ∧ p.category = c) ∧
    (p ∈ Product.find_by_availability db b ↔ p ∈ db.rows ∧ p.available = b) ∧
    (p ∈ Product.find_by_price db q ↔ p ∈ db.rows ∧ p.price = q) := by
  refine ⟨?_, ?_, ?_, ?_⟩ <;>
    simp [Product.find_by_name, Product.find_by_category,
      Product.find_by_availability, Product.find_by_price, List.mem_filter]

/-- C7: `DELETE /products/{id}` on an id matching no persisted row answers
404 and leaves the store exactly unchanged. -/
theorem delete_missing_404_no_mutation (db : DB) (pid : Nat)
    (h : Product.find db pid = none) :
    delete_product db pid = (.response 404 (.text "No said product"), db) := by
  simp [delete_product, h]

/-- Witness for C7 at the empty store and id 7. -/
theorem delete_missing_404_no_mutation_witness :
    Product.find (DB.mk [] 0) 7 = none ∧
    delete_product (DB.mk [] 0) 7 =
      (.response 404 (.text "No said product"), DB.mk [] 0) :=
  ⟨by decide, delete_missing_404_no_mutation (DB.mk [] 0) 7 (by decide)⟩

/-- C8 counterexample: on an id that matches a persisted row,
`delete_product` does answer status 204 but its body is the text `"OK"`, not
an empty body (`service/routes.py` line 210 returns `"OK"`). -/
theorem delete_found_body_not_empty_cex :
    Product.find sampleDB 1 = some sampleProduct ∧
    (delete_product sampleDB 1).1 = .response 204 (.text "OK") ∧
    (delete_product sampleDB 1).1 ≠ .response 204 (.text "") := by
  refine ⟨by decide, by decide, by decide⟩

/-- C8 amended: `DELETE /products/{id}` on an id matching a persisted row
answers status 204 with body `"OK"` (the handler's return value; an HTTP
framework discards response bodies on 204, so the on-wire body is empty, but
the handler itself returns `"OK"`). -/
theorem delete_found_204 (db : DB) (pid : Nat) (p : Product)
    (h : Product.find db pid = some p) :
    (delete_product db pid).1 = .response 204 (.text "OK") := by
  simp [delete_product, h]

/-- Witness for the amended C8 at the sample store. -/
theorem delete_found_204_witness :
    Product.find sampleDB 1 = some sampleProduct ∧
    (delete_product sampleDB 1).1 = .response 204 (.text "OK") :=
  ⟨by decide, delete_found_204 sampleDB 1 sampleProduct (by decide)⟩

/-- C9: `PUT /products/{id}` on an id matching no persisted row answers 404
whatever the Content-Type header and the body are — the existence check runs
before the media-type check and before any body parsing, so the outcome is
never 415 or 400 and the store is unchanged. -/
theorem put_missing_404_regardless (db : DB) (pid : Nat) (ct : Option String)
    (body : PyData) (h : Product.find db pid = none) :
    update_product db pid ct body =
      (.response 404 (.text "No said product"), db) := by
  simp [update_product, h]

/-- Witness for C9: missing id together with a wrong Content-Type and a
non-mapping body still yields 404, not 415 or 400. -/
theorem put_missing_404_regardless_witness :
    Product.find (DB.mk [] 0) 9 = none ∧
    update_product (DB.mk [] 0) 9 (some "text/html") (.text "junk") =
      (.response 404 (.text "No said product"), DB.mk [] 0) :=
  ⟨by decide,
   put_missing_404_regardless (DB.mk [] 0) 9 (some "text/html") (.text "junk")
     (by decide)⟩

theorem Category.fromValue_value (n : Nat) (k : Category)
    (h : Category.fromValue n = some k) : Category.value k = n := by
  unfold Category.fromValue at h
  split_ifs at h with h0 h1 h2
  · injection h with h; subst h; subst h0; rfl
  · injection h with h; subst h; subst h1; rfl
  · injection h with h; subst h; subst h2; rfl

theorem Category.fromName_eq (s : String) (k : Category)
    (h : Category.fromName s = some k) : Category.name k = s := by
  unfold Category.fromName at h
  split_ifs at h with h0 h1 h2
  · injection h with h; subst h; subst h0; rfl
  · injection h with h; subst h; subst h1; rfl
  · injection h with h; subst h; subst h2; rfl

theorem parseCategoryParam_fails (c : String)
    (hv : ¬ (pyIsDigit c = true ∧
      ∃ k : Category, pyInt c = Category.value k))
    (hn : ∀ k : Category, Category.name k ≠ c) :
    ∃ e, parseCategoryParam c = .error e := by
  unfold parseCategoryParam
  by_cases hd : pyIsDigit c = true
  · rw [if_pos hd]
    cases hf : Category.fromValue (pyInt c) with
    | none => exact ⟨.valueError, rfl⟩
    | some k =>
      exact absurd ⟨hd, k, (Category.fromValue_value _ k hf).symm⟩ hv
  · rw [if_neg hd]
    cases hf : Category.fromName c with
    | none => exact ⟨.keyError, rfl⟩
    | some k => exact absurd (Category.fromName_eq c k hf) (hn k)

/-- C6: `GET /products` applies exactly one filter, chosen by the precedence
category > available > name > none.  With `category` present the handler's
outcome does not depend on the other two parameters at all and, when the enum
lookup succeeds, is the category filter; with `category` absent and
`available` present it is the availability filter; with both absent and
`name` present it is the name filter; with all three absent it lists all. -/
theorem get_products_filter_precedence (db : DB)
    (avai nameq cate : Option String) :
    (∀ c, cate = some c →
      get_products db avai nameq cate = get_products db none none (some c) ∧
      ∀ k, parseCategoryParam c = .ok k →
        get_products db avai nameq cate =
          .response 200 (.jsonArr ((Product.find_by_category db k).map
            Product.serialize))) ∧
    (cate = none → ∀ a, avai = some a →
      get_products db avai nameq cate =
        .response 200 (.jsonArr ((Product.find_by_availability db
          (parseAvailParam a)).map Product.serialize))) ∧
    (cate = none → avai = none → ∀ n, nameq = some n →
      get_products db avai nameq cate =
        .response 200 (.jsonArr ((Product.find_by_name db n).map
          Product.serialize))) ∧
    (cate = none → avai = none → nameq = none →
      get_products db avai nameq cate =
        .response 200 (.jsonArr ((Product.all db).map Product.serialize))) := by
  refine ⟨?_, ?_, ?_, ?_⟩
  · intro c hc
    subst hc
    refine ⟨rfl, ?_⟩
    intro k hk
    simp [get_products, hk]
  · intro hc a ha
    subst hc; subst ha
    simp [get_products]
  · intro hc ha n hn
    subst hc; subst ha; subst hn
    simp [get_products]
  · intro hc ha hn
    subst hc; subst ha; subst hn
    simp [get_products]

/-- Witness for C6: with all three parameters supplied, the category filter
wins regardless of the other two. -/
theorem get_products_filter_precedence_witness :
    parseCategoryParam "CLOTHS" = .ok .CLOTHS ∧
    get_products sampleDB (some "true") (some "Fedora") (some "CLOTHS") =
      .response 200 (.jsonArr ((Product.find_by_category sampleDB
        .CLOTHS).map Product.serialize)) :=
  ⟨by rfl,
   ((get_products_filter_precedence sampleDB (some "true") (some "Fedora")
      (some "CLOTHS")).1 "CLOTHS" rfl).2 .CLOTHS (by rfl)⟩

/-- C10: a `category` query parameter that is neither a digit string whose
integer value is some member's value nor the exact, case-sensitive name of a
member makes `get_products` raise an unhandled enum-lookup error
(`ValueError` from `Category(int)` or `KeyError` from `Category[name]`): the
handler produces no 200 or 400 response of its own. -/
theorem get_products_bad_category_raises (db : DB) (avai nameq : Option String)
    (c : String)
    (hv : ¬ (pyIsDigit c = true ∧
      ∃ k : Category, pyInt c = Category.value k))
    (hn : ∀ k : Category, Category.name k ≠ c) :
    ∃ e, get_products db avai nameq (some c) = .error e := by
  obtain ⟨e, he⟩ := parseCategoryParam_fails c hv hn
  exact ⟨e, by simp [get_products, he]⟩

/-- Witness for C10 at the parameter value `"HATS"` (not a digit string, not
a member name). -/
theorem get_products_bad_category_raises_witness :
    (¬ (pyIsDigit "HATS" = true ∧
      ∃ k : Category, pyInt "HATS" = Category.value k)) ∧
    (∀ k : Category, Category.name k ≠ "HATS") ∧
    ∃ e, get_products sampleDB none none (some "HATS") = .error e :=
  ⟨by decide, by decide,
   get_products_bad_category_raises sampleDB none none "HATS" (by decide)
     (by decide)⟩

/-- C2 counterexample: take the persisted `sampleProduct` (id 1).  Its
serialized mapping carries a non-null `id`, yet the round trip through a
fresh instance yields `id` unset — `deserialize` never sets `id` — so the id
is not preserved even though it was present in the serialized mapping. -/
theorem roundtrip_id_not_preserved_cex :
    jlookup sampleProduct.serialize "id" = some (.num 1) ∧
    Product.blank.deserialize (.mapping sampleProduct.serialize) =
      .ok { sampleProduct with id := none } ∧
    ({ sampleProduct with id := none } : Product).id ≠ sampleProduct.id := by
  refine ⟨by rfl, by rfl, by decide⟩

/-- C2 amended: for every Product P, `deserialize(serialize(P))` on a fresh
instance yields a Product equal to P in name, description, price, available
and category, with `id` unset — `deserialize` never sets `id`, so P's id is
preserved exactly when it was null in the serialized mapping (P unpersisted),
not when it was present. -/
theorem deserialize_serialize_roundtrip (p : Product) :
    Product.blank.deserialize (.mapping p.serialize) =
      .ok { p with id := none } := by
  obtain ⟨pid, nm, ds, pr, av, ct⟩ := p
  cases pid <;> cases ds <;> cases ct <;> rfl

/-- C3: `deserialize` fails with the unified `DataValidationError` kind —
returning an error and no (partially populated) instance — on every input
that is not a mapping, on every mapping missing the `price` key, and on every
mapping whose `available` value is present but not an actual boolean (such as
the string `"Yes"`, rejected rather than coerced). -/
theorem deserialize_rejects_invalid (p : Product) (s : String)
    (m m2 : List (String × JVal)) (v : JVal)
    (hm : jlookup m "price" = none)
    (hv : ∀ b : Bool, v ≠ .bool b)
    (hm2 : jlookup m2 "available" = some v) :
    (∃ e, p.deserialize (.text s) = .error e) ∧
    (∃ e, p.deserialize (.mapping m) = .error e) ∧
    (∃ e, p.deserialize (.mapping m2) = .error e) := by
  refine ⟨⟨.notAMapping, rfl⟩, ?_, ?_⟩
  · cases hn : jlookup m "name" with
    | none => exact ⟨.missingKey "name", by simp [Product.deserialize, hn]⟩
    | some nv =>
      cases nv with
      | str nm =>
        exact ⟨.missingKey "price", by simp [Product.deserialize, hn, hm]⟩
      | null => exact ⟨.badType "name", by simp [Product.deserialize, hn]⟩
      | bool b => exact ⟨.badType "name", by simp [Product.deserialize, hn]⟩
      | num q => exact ⟨.badType "name", by simp [Product.deserialize, hn]⟩
      | decStr q => exact ⟨.badType "name", by simp [Product.deserialize, hn]⟩
  · cases hn : jlookup m2 "name" with
    | none => exact ⟨.missingKey "name", by simp [Product.deserialize, hn]⟩
    | some nv =>
      cases nv with
      | str nm =>
        cases hp : jlookup m2 "price" with
        | none =>
          exact ⟨.missingKey "price", by simp [Product.deserialize, hn, hp]⟩
        | some pv =>
          cases hpp : parsePrice pv with
          | none =>
            exact ⟨.badType "price", by simp [Product.deserialize, hn, hp, hpp]⟩
          | some pr =>
            cases v with
            | bool b => exact absurd rfl (hv b)
            | null =>
              exact ⟨.badType "available",
                by simp [Product.deserialize, hn, hp, hpp, hm2]⟩
            | str s2 =>
              exact ⟨.badType "available",
                by simp [Product.deserialize, hn, hp, hpp, hm2]⟩
            | num q =>
              exact ⟨.badType "available",
                by simp [Product.deserialize, hn, hp, hpp, hm2]⟩
            | decStr q =>
              exact ⟨.badType "available",
                by simp [Product.deserialize, hn, hp, hpp, hm2]⟩
      | null => exact ⟨.badType "name", by simp [Product.deserialize, hn]⟩
      | bool b => exact ⟨.badType "name", by simp [Product.deserialize, hn]⟩
      | num q => exact ⟨.badType "name", by simp [Product.deserialize, hn]⟩
      | decStr q => exact ⟨.badType "name", by simp [Product.deserialize, hn]⟩

/-- A mapping with the required `price` key absent. -/
def missingPriceMap : List (String × JVal) :=
  [("name", JVal.str "Fedora")]

/-- A mapping whose `available` value is the string `"Yes"` rather than a
boolean. -/
def yesAvailMap : List (String × JVal) :=
  [("name", JVal.str "Fedora"), ("description", JVal.str "A red hat"),
   ("price", JVal.decStr 12), ("available", JVal.str "Yes"),
   ("category", JVal.str "CLOTHS")]

/-- Witness for C3: a stringified mapping, a mapping without `price`, and a
mapping with `available = "Yes"` are each rejected. -/
theorem deserialize_rejects_invalid_witness :
    jlookup missingPriceMap "price" = none ∧
    (∀ b : Bool, JVal.str "Yes" ≠ JVal.bool b) ∧
    jlookup yesAvailMap "available" = some (JVal.str "Yes") ∧
    ((∃ e, Product.blank.deserialize (.text "a stringified mapping") =
        .error e) ∧
     (∃ e, Product.blank.deserialize (.mapping missingPriceMap) = .error e) ∧
     (∃ e, Product.blank.deserialize (.mapping yesAvailMap) = .error e)) :=
  ⟨by rfl, by decide, by rfl,
   deserialize_rejects_invalid Product.blank "a stringified mapping"
     missingPriceMap yesAvailMap (JVal.str "Yes") (by rfl) (by decide)
     (by rfl)⟩

/-- C4: `create()` on a Transient instance (id unset) assigns a non-null id,
and `find` at that id afterwards returns a product whose name, description,
price, available and category equal the values the instance had at creation
time.  The store is assumed well-formed: every persisted id is below the
generator's next id. -/
theorem create_assigns_id_and_find_matches (db : DB) (p : Product)
    (_hp : p.id = none)
    (hwf : ∀ r ∈ db.rows, ∀ i, r.id = some i → i < db.nextId) :
    (p.create db).1.id = some db.nextId ∧
    Product.find (p.create db).2 db.nextId = some (p.create db).1 ∧
    (p.create db).1.name = p.name ∧
    (p.create db).1.description = p.description ∧
    (p.create db).1.price = p.price ∧
    (p.create db).1.available = p.available ∧
    (p.create db).1.category = p.category := by
  refine ⟨rfl, ?_, rfl, rfl, rfl, rfl, rfl⟩
  unfold Product.find Product.create
  have h1 : db.rows.find? (fun r => decide (r.id = some db.nextId)) = none := by
    rw [List.find?_eq_none]
    intro r hr
    simp only [decide_eq_true_eq]
    intro hid
    exact absurd (hwf r hr db.nextId hid) (lt_irrefl _)
  rw [List.find?_append, h1]
  simp [List.find?]

/-- Witness for C4 at the empty store and a fresh instance. -/
theorem create_assigns_id_and_find_matches_witness :
    Product.blank.id = none ∧
    ((Product.blank.create (DB.mk [] 0)).1.id = some 0 ∧
     Product.find (Product.blank.create (DB.mk [] 0)).2 0 =
       some (Product.blank.create (DB.mk [] 0)).1) :=
  ⟨rfl,
   ⟨(create_assigns_id_and_find_matches (DB.mk [] 0) Product.blank rfl
       (by simp)).1,
    (create_assigns_id_and_find_matches (DB.mk [] 0) Product.blank rfl
       (by simp)).2.1⟩⟩

/-- The store holds some row carrying the persisted id `i`. -/
def hasRowId (db : DB) (i : Nat) : Prop :=
  ∃ r ∈ db.rows, r.id = some i

theorem find_of_hasRowId (db : DB) (i : Nat) (h : hasRowId db i) :
    ∃ r, Product.find db i = some r ∧ r.id = some i := by
  obtain ⟨r0, hr0, hid⟩ := h
  have hs : (db.rows.find? (fun r => decide (r.id = some i))).isSome := by
    rw [List.find?_isSome]
    exact ⟨r0, hr0, by simp [hid]⟩
  obtain ⟨r, hr⟩ := Option.isSome_iff_exists.1 hs
  refine ⟨r, hr, ?_⟩
  have := List.find?_some hr
  simpa using this

theorem deserialize_preserves_id (q : Product) (d : PyData) (q' : Product)
    (h : q.deserialize d = .ok q') : q'.id = q.id := by
  unfold Product.deserialize at h
  repeat' split at h
  all_goals
    first
    | (injection h with h; subst h; rfl)
    | injection h

theorem hasRowId_applyOp (db : DB) (i : Nat) (op : Op)
    (hop : ∀ pid, op = .del pid → pid ≠ i)
    (h : hasRowId db i) : hasRowId (applyOp db op) i := by
  obtain ⟨r0, hr0, hid⟩ := h
  cases op with
  | getList a n c => exact ⟨r0, hr0, hid⟩
  | getOne pid => exact ⟨r0, hr0, hid⟩
  | post ct body =>
    show hasRowId (create_products db ct body).2 i
    unfold create_products
    cases check_content_type ct "application/json" with
    | some r => exact ⟨r0, hr0, hid⟩
    | none =>
      cases Product.blank.deserialize body with
      | error e => exact ⟨r0, hr0, hid⟩
      | ok p =>
        refine ⟨r0, ?_, hid⟩
        unfold Product.create
        exact List.mem_append_left _ hr0
  | put pid ct body =>
    show hasRowId (update_product db pid ct body).2 i
    cases hf : Product.find db pid with
    | none =>
      simp only [update_product, hf]
      exact ⟨r0, hr0, hid⟩
    | some p =>
      cases hcc : check_content_type ct "application/json" with
      | some r =>
        simp only [update_product, hf, hcc]
        exact ⟨r0, hr0, hid⟩
      | none =>
        cases hd : p.deserialize body with
        | error e =>
          simp only [update_product, hf, hcc, hd]
          exact ⟨r0, hr0, hid⟩
        | ok p' =>
          simp only [update_product, hf, hcc, hd, Product.update]
          refine ⟨_, List.mem_map_of_mem _ hr0, ?_⟩
          split
          next hcond => exact hcond ▸ hid
          next hcond => exact hid
  | del pid =>
    have hpid : pid ≠ i := hop pid rfl
    show hasRowId (delete_product db pid).2 i
    cases hf : Product.find db pid with
    | none =>
      simp only [delete_product, hf]
      exact ⟨r0, hr0, hid⟩
    | some p =>
      have hpi : p.id = some pid := by simpa using List.find?_some hf
      simp only [delete_product, hf, Product.delete]
      refine ⟨r0, ?_, hid⟩
      rw [List.mem_filter]
      refine ⟨hr0, ?_⟩
      simp only [hid, hpi, decide_eq_true_eq, ne_eq, Option.some.injEq]
      exact fun hcon => hpid hcon.symm

theorem hasRowId_applyOps (i : Nat) (ops : List Op) (db : DB)
    (hops : ∀ pid, Op.del pid ∈ ops → pid ≠ i)
    (h : hasRowId db i) : hasRowId (applyOps db ops) i := by
  induction ops generalizing db with
  | nil => exact h
  | cons op rest ih =>
    have h1 : hasRowId (applyOp db op) i :=
      hasRowId_applyOp db i op
        (fun pid hpid => hops pid (by rw [hpid]; exact List.mem_cons_self _ _))
        h
    exact ih (applyOp db op)
      (fun pid hm => hops pid (List.mem_cons_of_mem _ hm)) h1

/-- C1: for a Transient instance, `create()` assigns the store-generated id,
and after any sequence of requests that does not delete that id, `find` at
that id still resolves a product carrying that same id — no handler (PUT
update included, despite its `product.id = product_id` reassignment) mutates
the id of a persisted product, and `deserialize` never changes the id of the
instance it populates. -/
theorem id_assigned_once_stable (db : DB) (p : Product) (_hp : p.id = none)
    (ops : List Op)
    (hdel : ∀ pid, Op.del pid ∈ ops → pid ≠ db.nextId) :
    (p.create db).1.id = some db.nextId ∧
    (∃ r, Product.find (applyOps (p.create db).2 ops) db.nextId = some r ∧
       r.id = some db.nextId) ∧
    (∀ (q q' : Product) (d : PyData), q.deserialize d = .ok q' →
       q'.id = q.id) := by
  refine ⟨rfl, ?_, fun q q' d hq => deserialize_preserves_id q d q' hq⟩
  apply find_of_hasRowId
  apply hasRowId_applyOps _ _ _ hdel
  refine ⟨(p.create db).1, ?_, rfl⟩
  unfold Product.create
  exact List.mem_append_right _ (List.mem_singleton_self _)

/-- Witness for C1: create in the empty store, then run a request sequence
(deleting a different id) and find the product again under its assigned id. -/
theorem id_assigned_once_stable_witness :
    Product.blank.id = none ∧
    (∀ pid, Op.del pid ∈ [Op.del 5] → pid ≠ (DB.mk [] 0).nextId) ∧
    ((Product.blank.create (DB.mk [] 0)).1.id = some 0 ∧
     ∃ r, Product.find (applyOps (Product.blank.create (DB.mk [] 0)).2
        [Op.del 5]) 0 = some r ∧ r.id = some 0) :=
  ⟨rfl,
   by intro pid hmem; simp at hmem; subst hmem; decide,
   ⟨(id_assigned_once_stable (DB.mk [] 0) Product.blank rfl [Op.del 5]
       (by intro pid hmem; simp at hmem; subst hmem; decide)).1,
    (id_assigned_once_stable (DB.mk [] 0) Product.blank rfl [Op.del 5]
       (by intro pid hmem; simp at hmem; subst hmem; decide)).2.1⟩⟩
